import Mathlib

/-!
Verification development for the `LoanAmortizationFHE` Solidity contract and the
web UI storage layer of the LoanSchedule_FHE repository.

The contract state (mappings, counters) is embedded as explicit Lean state; each
external (state-changing) contract function becomes a Lean function
`ContractState → ... → Except Err ContractState`, where an `Err` result models a
Solidity revert (caller state unchanged).  View functions returning `euint32`
become `ContractState → ... → Except Err Nat`.

Ciphertext handles (`euint32`) are embedded as their 32-bit unsigned plaintext
values (a `Nat` kept below `2^32`): the FHE library is an external dependency,
so its arithmetic is modelled from the specification (wraparound arithmetic
mod `2^32`, truncating unsigned division, division-by-zero masked to the
maximum representable value).
-/

namespace LoanFHE

/-- Modulus of the 32-bit unsigned ciphertext plaintext space. -/
def M32 : Nat := 4294967296

/-- Maximum representable 32-bit unsigned value. -/
def MAX32 : Nat := 4294967295

/-- Modelled from the spec: `FHE.add` on euint32 — addition mod `2^32`. -/
def fheAdd (a b : Nat) : Nat := (a % M32 + b % M32) % M32

/-- Modelled from the spec: `FHE.sub` on euint32 — wraparound subtraction mod `2^32`. -/
def fheSub (a b : Nat) : Nat := (a % M32 + (M32 - b % M32)) % M32

/-- Modelled from the spec: `FHE.mul` on euint32 — multiplication mod `2^32`. -/
def fheMul (a b : Nat) : Nat := (a % M32 * (b % M32)) % M32

/-- Modelled from the spec: `FHE.div` on euint32 — truncating unsigned division;
division by an encrypted zero is masked to the maximum representable value
(the sentinel policy of spec section 4.2). -/
def fheDiv (a b : Nat) : Nat :=
  if b % M32 = 0 then MAX32 else (a % M32) / (b % M32)

/-- Modelled from the spec: `FHE.pow` on euint32 — exponentiation mod `2^32`. -/
def fhePow (a b : Nat) : Nat := ((a % M32) ^ b) % M32

/-- Modelled from the spec: `FHE.gt` on euint32 — encrypted strict comparison,
embedded as its boolean plaintext. -/
def fheGt (a b : Nat) : Bool := decide (b % M32 < a % M32)

/-- Modelled from the spec: `FHE.cmux` — branch-free select; plaintext semantics
return the first operand when the condition is true, else the second. -/
def fheCmux (c : Bool) (a b : Nat) : Nat := cond c (a % M32) (b % M32)

/-- Error taxonomy of the contract, named as in the specification; the Solidity
require-message mapping is: "Not admin"/"Not authorized"/"Not borrower" →
`Unauthorized`, "Already calculated" → `AlreadyCalculated`, "Already decrypted"
→ `AlreadyRevealed`, "Schedule not calculated" → `NotCalculated`, "Invalid
request" → `UnknownRequest`, failed `FHE.checkSignatures` → `InvalidProof`. -/
inductive Err where
  | Unauthorized
  | NotCalculated
  | AlreadyCalculated
  | AlreadyRevealed
  | UnknownRequest
  | InvalidProof
deriving DecidableEq

/-- Embedding of the Solidity struct `EncryptedLoan`; euint32 handles carry
their plaintext value, addresses are embedded as `Nat` (0 = zero address). -/
structure EncryptedLoan where
  id : Nat
  borrower : Nat
  encryptedPrincipal : Nat
  encryptedInterestRate : Nat
  encryptedTerm : Nat
  encryptedExtraPayment : Nat
  timestamp : Nat
deriving DecidableEq

/-- Embedding of the Solidity struct `AmortizationSchedule`. -/
structure AmortizationSchedule where
  encryptedMonthlyPayment : Nat
  encryptedTotalInterest : Nat
  encryptedPayoffTime : Nat
  isCalculated : Bool
deriving DecidableEq

/-- Embedding of the Solidity struct `DecryptedSchedule`. -/
structure DecryptedSchedule where
  monthlyPayment : Nat
  totalInterest : Nat
  payoffTime : Nat
  isRevealed : Bool
deriving DecidableEq

/-- Zero-initialized `EncryptedLoan`, the Solidity default for an absent
mapping entry. -/
def zeroLoan : EncryptedLoan := ⟨0, 0, 0, 0, 0, 0, 0⟩

/-- Zero-initialized `AmortizationSchedule` (Solidity mapping default). -/
def zeroSchedule : AmortizationSchedule := ⟨0, 0, 0, false⟩

/-- Zero-initialized `DecryptedSchedule` (Solidity mapping default). -/
def zeroDecrypted : DecryptedSchedule := ⟨0, 0, 0, false⟩

/-- Pointwise update of a mapping, embedding Solidity mapping assignment. -/
def upd {α : Type} (f : Nat → α) (i : Nat) (v : α) : Nat → α :=
  fun k => if k = i then v else f k

/-- Contract storage of `LoanAmortizationFHE`: mappings become total functions
with the Solidity zero default; `nextRequestId` models the unique request-id
generation of the external `FHE.requestDecryption` (modelled from the spec:
request ids are guaranteed unique). -/
structure ContractState where
  loanCount : Nat
  encryptedLoans : Nat → EncryptedLoan
  amortizationSchedules : Nat → AmortizationSchedule
  decryptedSchedules : Nat → DecryptedSchedule
  borrowerLoans : Nat → List Nat
  financialAdvisors : Nat → Bool
  requestToLoanId : Nat → Nat
  platformAdmin : Nat
  nextRequestId : Nat

/-- State of a freshly deployed contract: `platformAdmin = msg.sender`
(the constructor), all mappings zero-initialized. -/
def initState (admin : Nat) : ContractState :=
  { loanCount := 0
    encryptedLoans := fun _ => zeroLoan
    amortizationSchedules := fun _ => zeroSchedule
    decryptedSchedules := fun _ => zeroDecrypted
    borrowerLoans := fun _ => []
    financialAdvisors := fun _ => false
    requestToLoanId := fun _ => 0
    platformAdmin := admin
    nextRequestId := 1 }

/-- Transaction application with EVM revert semantics: an `Err` result leaves
the pre-state unchanged. -/
def applyTx (st : ContractState) (r : Except Err ContractState) : ContractState :=
  match r with
  | .ok st' => st'
  | .error _ => st

/-- Boolean success test on a transaction or view result. -/
def isOkE {α : Type} (r : Except Err α) : Bool :=
  match r with
  | .ok _ => true
  | .error _ => false

/-- Embedding of `authorizeAdvisor` (onlyAdmin). -/
def authorizeAdvisor (st : ContractState) (caller advisor : Nat) :
    Except Err ContractState :=
  if caller ≠ st.platformAdmin then .error .Unauthorized
  else .ok { st with financialAdvisors := upd st.financialAdvisors advisor true }

/-- Embedding of `submitEncryptedLoan`: no revert path; increments `loanCount`,
stores the loan, resets the schedule records of the new id, and appends the id
to the caller's loan list.  `FHE.asEuint32 0` is the trivial encryption of 0. -/
def submitEncryptedLoan (st : ContractState) (caller p r t e ts : Nat) :
    ContractState :=
  let newId := st.loanCount + 1
  { st with
    loanCount := newId
    encryptedLoans := upd st.encryptedLoans newId ⟨newId, caller, p, r, t, e, ts⟩
    amortizationSchedules := upd st.amortizationSchedules newId ⟨0, 0, 0, false⟩
    decryptedSchedules := upd st.decryptedSchedules newId ⟨0, 0, 0, false⟩
    borrowerLoans := upd st.borrowerLoans caller (st.borrowerLoans caller ++ [newId]) }

/-- The schedule computation and storage update performed by the body of
`calculateAmortization` (source lines 885-919), after its requires pass. -/
def calcScheduleUpdate (st : ContractState) (loanId : Nat) : ContractState :=
  let loan := st.encryptedLoans loanId
  let monthlyRate := fheDiv loan.encryptedInterestRate 1200
  let numerator := fheMul (fheMul loan.encryptedPrincipal monthlyRate)
      (fhePow (fheAdd 1 monthlyRate) loan.encryptedTerm)
  let denominator := fheSub (fhePow (fheAdd 1 monthlyRate) loan.encryptedTerm) 1
  let monthlyPayment := fheDiv numerator denominator
  let totalPayment := fheMul monthlyPayment loan.encryptedTerm
  let totalInterest := fheSub totalPayment loan.encryptedPrincipal
  let extraPayment := loan.encryptedExtraPayment
  let effectivePayment := fheAdd monthlyPayment extraPayment
  let payoffTime := fheDiv loan.encryptedPrincipal effectivePayment
  { st with
    amortizationSchedules := upd st.amortizationSchedules loanId
      ⟨monthlyPayment, totalInterest, payoffTime, true⟩ }

/-- Embedding of `calculateAmortization` (onlyAdvisor): requires the caller to
be an authorized advisor, requires the schedule not yet calculated, then
performs `calcScheduleUpdate`. -/
def calculateAmortization (st : ContractState) (caller loanId : Nat) :
    Except Err ContractState :=
  if ¬ st.financialAdvisors caller then .error .Unauthorized
  else if (st.amortizationSchedules loanId).isCalculated then .error .AlreadyCalculated
  else .ok (calcScheduleUpdate st loanId)

/-- Embedding of `requestScheduleDecryption`: requires `msg.sender` to be the
loan's borrower, the result not yet revealed, and the schedule calculated; the
external `FHE.requestDecryption` is modelled (from the spec) as drawing the
next unique request id, which is mapped to the loan. -/
def requestScheduleDecryption (st : ContractState) (caller loanId : Nat) :
    Except Err ContractState :=
  if (st.encryptedLoans loanId).borrower ≠ caller then .error .Unauthorized
  else if (st.decryptedSchedules loanId).isRevealed then .error .AlreadyRevealed
  else if ¬ (st.amortizationSchedules loanId).isCalculated then .error .NotCalculated
  else
    .ok { st with
          requestToLoanId := upd st.requestToLoanId st.nextRequestId loanId
          nextRequestId := st.nextRequestId + 1 }

/-- Cleartexts delivered by the oracle: the abi-encoded triple
`(monthlyPayment, totalInterest, payoffTime)` of uint32 values. -/
abbrev Cleartexts := Nat × Nat × Nat

/-- Embedding of the oracle callback `decryptAmortizationSchedule`
(`resolveDecryption`): the function is public with no caller restriction, so
the `caller` argument is unused, mirroring the absence of any `msg.sender`
check in the source.  The external `FHE.checkSignatures` is modelled (from the
spec) as a boolean verification oracle `checkSig`; `false` means the require
inside `FHE.checkSignatures` reverts, surfaced as `InvalidProof`. -/
def decryptAmortizationSchedule (st : ContractState)
    (checkSig : Nat → Cleartexts → Nat → Bool)
    (_caller requestId : Nat) (cleartexts : Cleartexts) (proof : Nat) :
    Except Err ContractState :=
  let loanId := st.requestToLoanId requestId
  if loanId = 0 then .error .UnknownRequest
  else if ¬ (st.amortizationSchedules loanId).isCalculated then .error .NotCalculated
  else if (st.decryptedSchedules loanId).isRevealed then .error .AlreadyRevealed
  else if ¬ checkSig requestId cleartexts proof then .error .InvalidProof
  else
    .ok { st with
          decryptedSchedules := upd st.decryptedSchedules loanId
            ⟨cleartexts.1, cleartexts.2.1, cleartexts.2.2, true⟩ }

/-- Embedding of the view function `calculateInterestSavings`. -/
def calculateInterestSavings (st : ContractState) (loanId : Nat) : Except Err Nat :=
  let loan := st.encryptedLoans loanId
  let schedule := st.amortizationSchedules loanId
  if ¬ schedule.isCalculated then .error .NotCalculated
  else
    let baseTotalInterest := schedule.encryptedTotalInterest
    let extraPayment := loan.encryptedExtraPayment
    let effectivePayment := fheAdd schedule.encryptedMonthlyPayment extraPayment
    let payoffTime := schedule.encryptedPayoffTime
    let totalPaymentWithExtra := fheMul effectivePayment payoffTime
    let totalInterestWithExtra := fheSub totalPaymentWithExtra loan.encryptedPrincipal
    .ok (fheSub baseTotalInterest totalInterestWithExtra)

/-- Embedding of the view function `calculateAffordability`. -/
def calculateAffordability (st : ContractState) (loanId : Nat) : Except Err Nat :=
  let loan := st.encryptedLoans loanId
  let schedule := st.amortizationSchedules loanId
  if ¬ schedule.isCalculated then .error .NotCalculated
  else
    let estimatedIncome := fheDiv loan.encryptedPrincipal 10
    let disposableIncome := fheSub estimatedIncome schedule.encryptedMonthlyPayment
    .ok (fheDiv (fheMul disposableIncome 100) estimatedIncome)

/-- Embedding of the view function `optimizePaymentStrategy`. -/
def optimizePaymentStrategy (st : ContractState) (loanId : Nat) : Except Err Nat :=
  let loan := st.encryptedLoans loanId
  let schedule := st.amortizationSchedules loanId
  if ¬ schedule.isCalculated then .error .NotCalculated
  else do
    let savings ← calculateInterestSavings st loanId
    let savingsRatio := fheDiv (fheMul savings 100) schedule.encryptedTotalInterest
    .ok (fheCmux (fheGt savingsRatio 15)
          (fheAdd loan.encryptedExtraPayment 100)
          loan.encryptedExtraPayment)

/-- Embedding of the view function `calculateDebtToIncome`. -/
def calculateDebtToIncome (st : ContractState) (loanId : Nat) : Except Err Nat :=
  let loan := st.encryptedLoans loanId
  let schedule := st.amortizationSchedules loanId
  if ¬ schedule.isCalculated then .error .NotCalculated
  else
    let estimatedIncome := fheDiv loan.encryptedPrincipal 10
    .ok (fheDiv (fheMul schedule.encryptedMonthlyPayment 100) estimatedIncome)

/-- Embedding of the view function `estimateEarlyPayoffImpact`. -/
def estimateEarlyPayoffImpact (st : ContractState) (loanId additionalPayment : Nat) :
    Except Err Nat :=
  let loan := st.encryptedLoans loanId
  let schedule := st.amortizationSchedules loanId
  if ¬ schedule.isCalculated then .error .NotCalculated
  else
    let newExtraPayment := fheAdd loan.encryptedExtraPayment additionalPayment
    let effectivePayment := fheAdd schedule.encryptedMonthlyPayment newExtraPayment
    let newPayoffTime := fheDiv loan.encryptedPrincipal effectivePayment
    let totalPayment := fheMul effectivePayment newPayoffTime
    let totalInterest := fheSub totalPayment loan.encryptedPrincipal
    .ok (fheSub schedule.encryptedTotalInterest totalInterest)

/-- Embedding of the view function `calculateLoanHealth`. -/
def calculateLoanHealth (st : ContractState) (loanId : Nat) : Except Err Nat := do
  let dti ← calculateDebtToIncome st loanId
  let affordability ← calculateAffordability st loanId
  .ok (fheDiv (fheAdd (fheSub 100 dti) affordability) 2)

/-- Embedding of the view function `calculateRefinancingBenefit`. -/
def calculateRefinancingBenefit (st : ContractState) (loanId newRate : Nat) :
    Except Err Nat :=
  let loan := st.encryptedLoans loanId
  let schedule := st.amortizationSchedules loanId
  if ¬ schedule.isCalculated then .error .NotCalculated
  else
    let newMonthlyRate := fheDiv newRate 1200
    let newMonthlyPayment := fheDiv
      (fheMul (fheMul loan.encryptedPrincipal newMonthlyRate)
        (fhePow (fheAdd 1 newMonthlyRate) loan.encryptedTerm))
      (fheSub (fhePow (fheAdd 1 newMonthlyRate) loan.encryptedTerm) 1)
    let newTotalInterest := fheSub (fheMul newMonthlyPayment loan.encryptedTerm)
      loan.encryptedPrincipal
    .ok (fheSub schedule.encryptedTotalInterest newTotalInterest)

/-- Embedding of the view function `calculatePaymentShockRisk`. -/
def calculatePaymentShockRisk (st : ContractState) (loanId : Nat) : Except Err Nat :=
  let schedule := st.amortizationSchedules loanId
  if ¬ schedule.isCalculated then .error .NotCalculated
  else
    .ok (fheDiv (fheMul schedule.encryptedMonthlyPayment 100)
          (st.encryptedLoans loanId).encryptedPrincipal)

/-- Embedding of the view function `optimizeForGoals`. -/
def optimizeForGoals (st : ContractState) (loanId goalTime : Nat) : Except Err Nat :=
  let loan := st.encryptedLoans loanId
  let schedule := st.amortizationSchedules loanId
  if ¬ schedule.isCalculated then .error .NotCalculated
  else .ok (fheDiv loan.encryptedPrincipal goalTime)

/-- Embedding of the view function `calculateInterestSensitivity`. -/
def calculateInterestSensitivity (st : ContractState) (loanId : Nat) : Except Err Nat :=
  let loan := st.encryptedLoans loanId
  let schedule := st.amortizationSchedules loanId
  if ¬ schedule.isCalculated then .error .NotCalculated
  else
    let newRate := fheAdd loan.encryptedInterestRate 100
    let newMonthlyRate := fheDiv newRate 1200
    let newMonthlyPayment := fheDiv
      (fheMul (fheMul loan.encryptedPrincipal newMonthlyRate)
        (fhePow (fheAdd 1 newMonthlyRate) loan.encryptedTerm))
      (fheSub (fhePow (fheAdd 1 newMonthlyRate) loan.encryptedTerm) 1)
    .ok (fheSub newMonthlyPayment schedule.encryptedMonthlyPayment)

/-- Embedding of the view function `estimateTaxBenefit`. -/
def estimateTaxBenefit (st : ContractState) (loanId : Nat) : Except Err Nat :=
  let schedule := st.amortizationSchedules loanId
  if ¬ schedule.isCalculated then .error .NotCalculated
  else .ok (fheDiv schedule.encryptedTotalInterest 4)

/-- Embedding of the view function `calculateLoanLiquidity`. -/
def calculateLoanLiquidity (st : ContractState) (loanId : Nat) : Except Err Nat :=
  let loan := st.encryptedLoans loanId
  let schedule := st.amortizationSchedules loanId
  if ¬ schedule.isCalculated then .error .NotCalculated
  else .ok (fheDiv loan.encryptedPrincipal (fheMul schedule.encryptedMonthlyPayment 6))

/-- Embedding of the view function `detectOverleveraging` (returns an ebool). -/
def detectOverleveraging (st : ContractState) (loanId : Nat) : Except Err Bool := do
  let dti ← calculateDebtToIncome st loanId
  .ok (fheGt dti 40)

/-- Embedding of the view function `calculateFinancialFlexibility`. -/
def calculateFinancialFlexibility (st : ContractState) (loanId : Nat) :
    Except Err Nat := do
  let affordability ← calculateAffordability st loanId
  let loanHealth ← calculateLoanHealth st loanId
  .ok (fheDiv (fheAdd affordability loanHealth) 2)

/-- Embedding of the view function `optimizeForCashFlow`. -/
def optimizeForCashFlow (st : ContractState) (loanId : Nat) : Except Err Nat :=
  let schedule := st.amortizationSchedules loanId
  if ¬ schedule.isCalculated then .error .NotCalculated
  else .ok (fheDiv (fheMul schedule.encryptedMonthlyPayment 90) 100)

/-- Embedding of the view function `calculatePrepaymentRisk`: note that, unlike
every other analytic view, it has no `isCalculated` require. -/
def calculatePrepaymentRisk (st : ContractState) (loanId : Nat) : Except Err Nat :=
  let loan := st.encryptedLoans loanId
  .ok (fheDiv (fheMul loan.encryptedExtraPayment 100) loan.encryptedPrincipal)

/-- Embedding of the view function `estimateNetCost`. -/
def estimateNetCost (st : ContractState) (loanId : Nat) : Except Err Nat :=
  let schedule := st.amortizationSchedules loanId
  if ¬ schedule.isCalculated then .error .NotCalculated
  else do
    let taxBenefit ← estimateTaxBenefit st loanId
    .ok (fheSub schedule.encryptedTotalInterest taxBenefit)

/-- Embedding of the view function `calculateLoanEfficiency`. -/
def calculateLoanEfficiency (st : ContractState) (loanId : Nat) : Except Err Nat :=
  let loan := st.encryptedLoans loanId
  let schedule := st.amortizationSchedules loanId
  if ¬ schedule.isCalculated then .error .NotCalculated
  else
    .ok (fheDiv (fheMul loan.encryptedPrincipal 100)
          (fheAdd loan.encryptedPrincipal schedule.encryptedTotalInterest))

/-- Embedding of the view function `generatePersonalizedAdvice`. -/
def generatePersonalizedAdvice (st : ContractState) (loanId : Nat) :
    Except Err Nat := do
  let savings ← calculateInterestSavings st loanId
  let risk ← calculatePaymentShockRisk st loanId
  .ok (fheCmux (fheGt savings 1000) 1 (fheCmux (fheGt risk 15) 2 3))

/-- Embedding of the view function `calculateDebtSustainability`. -/
def calculateDebtSustainability (st : ContractState) (loanId : Nat) :
    Except Err Nat := do
  let dti ← calculateDebtToIncome st loanId
  .ok (fheSub 100 dti)

/-- Embedding of the view function `estimateInflationImpact`. -/
def estimateInflationImpact (st : ContractState) (loanId : Nat) : Except Err Nat :=
  let schedule := st.amortizationSchedules loanId
  if ¬ schedule.isCalculated then .error .NotCalculated
  else .ok (fheDiv schedule.encryptedTotalInterest 2)

/-- Verification oracle accepting every (requestId, cleartexts, proof) triple:
models the external oracle delivering a valid threshold-signature proof. -/
def okSig : Nat → Cleartexts → Nat → Bool := fun _ _ _ => true

/-- The correct decryptions of the three schedule handles of a loan, i.e. the
cleartexts a valid proof authenticates. -/
def trueClear (st : ContractState) (loanId : Nat) : Cleartexts :=
  ((st.amortizationSchedules loanId).encryptedMonthlyPayment,
   (st.amortizationSchedules loanId).encryptedTotalInterest,
   (st.amortizationSchedules loanId).encryptedPayoffTime)

/-- Freshly deployed contract, admin address 1. -/
def sc0 : ContractState := initState 1

/-- After the admin authorizes advisor address 2. -/
def sc1 : ContractState := applyTx sc0 (authorizeAdvisor sc0 1 2)

/-- After borrower address 3 submits the loan of the end-to-end scenario:
principal 10000, rate 500 basis points, term 36 months, extra payment 0. -/
def sc2 : ContractState := submitEncryptedLoan sc1 3 10000 500 36 0 100

/-- After the advisor calculates the amortization schedule of loan 1. -/
def sc3 : ContractState := applyTx sc2 (calculateAmortization sc2 2 1)

/-- After the borrower requests decryption of schedule 1 (request id 1). -/
def sc4 : ContractState := applyTx sc3 (requestScheduleDecryption sc3 3 1)

/-- The cleartexts of request 1: the true decryptions of schedule 1. -/
def clearA : Cleartexts := trueClear sc4 1

/-- After the oracle resolves request 1 with a valid proof. -/
def sc5 : ContractState :=
  applyTx sc4 (decryptAmortizationSchedule sc4 okSig 9 1 clearA 0)

/-- Written from the spec's closed-form annuity formula, for the scenario
principal 10000, annual rate 500 basis points, term 36: monthly rate
`r = 500/1200 = 1/240`, payment `P*r*(1+r)^n / ((1+r)^n - 1)` =
`10000 * 241^36 / (240 * (241^36 - 240^36))` as an exact rational, floored. -/
def specAnnuityPaymentFloor : Nat :=
  (10000 * 241 ^ 36) / (240 * (241 ^ 36 - 240 ^ 36))

theorem errBind {α β : Type} (e : Err) (f : α → Except Err β) :
    (Except.error e : Except Err α) >>= f = .error e := rfl

/-- Claim C1 (amended): for every loanId whose schedule has `isCalculated`
false, every read-only analytic function except `calculatePrepaymentRisk`
fails with `NotCalculated`; `calculatePrepaymentRisk` performs no such check
and returns a result. -/
theorem analytics_require_calculated (st : ContractState) (loanId x y z : Nat)
    (hnc : (st.amortizationSchedules loanId).isCalculated = false) :
    calculateInterestSavings st loanId = .error .NotCalculated ∧
    calculateAffordability st loanId = .error .NotCalculated ∧
    optimizePaymentStrategy st loanId = .error .NotCalculated ∧
    calculateDebtToIncome st loanId = .error .NotCalculated ∧
    estimateEarlyPayoffImpact st loanId x = .error .NotCalculated ∧
    calculateLoanHealth st loanId = .error .NotCalculated ∧
    calculateRefinancingBenefit st loanId y = .error .NotCalculated ∧
    calculatePaymentShockRisk st loanId = .error .NotCalculated ∧
    optimizeForGoals st loanId z = .error .NotCalculated ∧
    calculateInterestSensitivity st loanId = .error .NotCalculated ∧
    estimateTaxBenefit st loanId = .error .NotCalculated ∧
    calculateLoanLiquidity st loanId = .error .NotCalculated ∧
    detectOverleveraging st loanId = .error .NotCalculated ∧
    calculateFinancialFlexibility st loanId = .error .NotCalculated ∧
    optimizeForCashFlow st loanId = .error .NotCalculated ∧
    estimateNetCost st loanId = .error .NotCalculated ∧
    calculateLoanEfficiency st loanId = .error .NotCalculated ∧
    generatePersonalizedAdvice st loanId = .error .NotCalculated ∧
    calculateDebtSustainability st loanId = .error .NotCalculated ∧
    estimateInflationImpact st loanId = .error .NotCalculated ∧
    calculatePrepaymentRisk st loanId =
      .ok (fheDiv (fheMul (st.encryptedLoans loanId).encryptedExtraPayment 100)
            (st.encryptedLoans loanId).encryptedPrincipal) := by
  refine ⟨?_, ?_, ?_, ?_, ?_, ?_, ?_, ?_, ?_, ?_, ?_, ?_, ?_, ?_, ?_, ?_, ?_,
    ?_, ?_, ?_, ?_⟩ <;>
    simp [calculateInterestSavings, calculateAffordability,
      optimizePaymentStrategy, calculateDebtToIncome, estimateEarlyPayoffImpact,
      calculateLoanHealth, calculateRefinancingBenefit, calculatePaymentShockRisk,
      optimizeForGoals, calculateInterestSensitivity, estimateTaxBenefit,
      calculateLoanLiquidity, detectOverleveraging, calculateFinancialFlexibility,
      optimizeForCashFlow, estimateNetCost, calculateLoanEfficiency,
      generatePersonalizedAdvice, calculateDebtSustainability,
      estimateInflationImpact, calculatePrepaymentRisk, errBind, hnc]

/-- Witness for C1's amended theorem at the concrete post-submission state. -/
theorem analytics_require_calculated_witness :
    (sc2.amortizationSchedules 1).isCalculated = false ∧
    calculateInterestSavings sc2 1 = .error .NotCalculated ∧
    calculateAffordability sc2 1 = .error .NotCalculated ∧
    optimizePaymentStrategy sc2 1 = .error .NotCalculated ∧
    calculateDebtToIncome sc2 1 = .error .NotCalculated ∧
    estimateEarlyPayoffImpact sc2 1 50 = .error .NotCalculated ∧
    calculateLoanHealth sc2 1 = .error .NotCalculated ∧
    calculateRefinancingBenefit sc2 1 400 = .error .NotCalculated ∧
    calculatePaymentShockRisk sc2 1 = .error .NotCalculated ∧
    optimizeForGoals sc2 1 24 = .error .NotCalculated ∧
    calculateInterestSensitivity sc2 1 = .error .NotCalculated ∧
    estimateTaxBenefit sc2 1 = .error .NotCalculated ∧
    calculateLoanLiquidity sc2 1 = .error .NotCalculated ∧
    detectOverleveraging sc2 1 = .error .NotCalculated ∧
    calculateFinancialFlexibility sc2 1 = .error .NotCalculated ∧
    optimizeForCashFlow sc2 1 = .error .NotCalculated ∧
    estimateNetCost sc2 1 = .error .NotCalculated ∧
    calculateLoanEfficiency sc2 1 = .error .NotCalculated ∧
    generatePersonalizedAdvice sc2 1 = .error .NotCalculated ∧
    calculateDebtSustainability sc2 1 = .error .NotCalculated ∧
    estimateInflationImpact sc2 1 = .error .NotCalculated ∧
    calculatePrepaymentRisk sc2 1 =
      .ok (fheDiv (fheMul (sc2.encryptedLoans 1).encryptedExtraPayment 100)
            (sc2.encryptedLoans 1).encryptedPrincipal) :=
  ⟨by decide, analytics_require_calculated sc2 1 50 400 24 (by decide)⟩

/-- Counterexample to claim C1 as stated: in the post-submission state the
schedule of loan 1 is not calculated, yet the read-only analytic function
`calculatePrepaymentRisk` does not fail with `NotCalculated` — it succeeds,
returning the ciphertext value 0. -/
theorem prepaymentRisk_no_calculated_check :
    (sc2.amortizationSchedules 1).isCalculated = false ∧
    calculatePrepaymentRisk sc2 1 = .ok 0 ∧
    calculatePrepaymentRisk sc2 1 ≠ .error .NotCalculated := by
  refine ⟨by decide, rfl, fun h => ?_⟩
  rw [show calculatePrepaymentRisk sc2 1 = .ok 0 from rfl] at h
  exact Except.noConfusion h

/-- Claim C2: in the end-to-end scenario (principal 10000, rate 500 basis
points, term 36, extra payment 0; calculate, request, resolve with a valid
proof), `isRevealed` becomes true, but the revealed `monthlyPayment` is the
division-by-zero sentinel `2^32 - 1`: truncating 32-bit division makes the
monthly rate `500 / 1200 = 0`, so the annuity denominator `(1+0)^36 - 1` is 0.
The closed-form annuity payment for these inputs is `299.70...` (floor 299),
so the stored value matches neither its floor nor its ceiling. -/
theorem endToEnd_monthlyPayment_not_annuity :
    (sc5.decryptedSchedules 1).isRevealed = true ∧
    (sc5.decryptedSchedules 1).monthlyPayment = 4294967295 ∧
    specAnnuityPaymentFloor = 299 ∧
    (sc5.decryptedSchedules 1).monthlyPayment ≠ specAnnuityPaymentFloor ∧
    (sc5.decryptedSchedules 1).monthlyPayment ≠ specAnnuityPaymentFloor + 1 := by
  decide

/-- Claim C9: the oracle callback `decryptAmortizationSchedule` has no caller
restriction — its result is independent of the caller — and it succeeds
exactly when the requestId maps to a nonzero loanId, that loan's schedule is
calculated and not yet revealed, and the proof check accepts the triple. -/
theorem resolve_caller_independent (st : ContractState)
    (V : Nat → Cleartexts → Nat → Bool) (c c' req pf : Nat) (cl : Cleartexts) :
    decryptAmortizationSchedule st V c req cl pf =
      decryptAmortizationSchedule st V c' req cl pf ∧
    (isOkE (decryptAmortizationSchedule st V c req cl pf) = true ↔
      (st.requestToLoanId req ≠ 0 ∧
       (st.amortizationSchedules (st.requestToLoanId req)).isCalculated = true ∧
       (st.decryptedSchedules (st.requestToLoanId req)).isRevealed = false ∧
       V req cl pf = true)) := by
  constructor
  · rfl
  · simp only [decryptAmortizationSchedule]
    by_cases h1 : st.requestToLoanId req = 0 <;>
      by_cases h2 : (st.amortizationSchedules (st.requestToLoanId req)).isCalculated = true <;>
      by_cases h3 : (st.decryptedSchedules (st.requestToLoanId req)).isRevealed = true <;>
      by_cases h4 : V req cl pf = true <;>
      simp [h1, h2, h3, h4, isOkE]

/-- Claim C10: `calculateAmortization` never checks that the loan exists — on
any loanId whose storage is still zero-initialized (never created by
`submitEncryptedLoan`), an authorized advisor's call passes the `isCalculated`
guard, computes over the zero ciphertext handles, and permanently marks the
phantom schedule as calculated (monthly payment becomes the division-by-zero
sentinel). -/
theorem calc_phantom_loan (st : ContractState) (c loanId : Nat)
    (hadv : st.financialAdvisors c = true)
    (hloan : st.encryptedLoans loanId = zeroLoan)
    (hsched : st.amortizationSchedules loanId = zeroSchedule) :
    calculateAmortization st c loanId = .ok (calcScheduleUpdate st loanId) ∧
    ((calcScheduleUpdate st loanId).amortizationSchedules loanId).isCalculated = true ∧
    (calcScheduleUpdate st loanId).amortizationSchedules loanId =
      ⟨4294967295, 0, 0, true⟩ := by
  refine ⟨?_, ?_, ?_⟩
  · simp [calculateAmortization, hadv, hsched, zeroSchedule]
  · simp [calcScheduleUpdate, upd]
  · simp [calcScheduleUpdate, upd, hloan, zeroLoan]
    decide

/-- Witness for C10: in the freshly deployed state with advisor 2 authorized,
loan id 7 was never created (`loanCount = 0`), yet the advisor's call
succeeds and marks schedule 7 calculated. -/
theorem calc_phantom_loan_witness :
    sc1.financialAdvisors 2 = true ∧
    sc1.loanCount = 0 ∧
    sc1.encryptedLoans 7 = zeroLoan ∧
    sc1.amortizationSchedules 7 = zeroSchedule ∧
    calculateAmortization sc1 2 7 = .ok (calcScheduleUpdate sc1 7) ∧
    ((calcScheduleUpdate sc1 7).amortizationSchedules 7).isCalculated = true :=
  ⟨by decide, by decide, by decide, by decide,
   (calc_phantom_loan sc1 2 7 (by decide) (by decide) (by decide)).1,
   (calc_phantom_loan sc1 2 7 (by decide) (by decide) (by decide)).2.1⟩

/-- Claim C5: `requestScheduleDecryption` fails with `Unauthorized` when the
caller is not the loan's borrower, with `NotCalculated` when the borrower calls
before the schedule is computed (and nothing was revealed), and with
`AlreadyRevealed` when a prior request already resolved; every failing call
leaves the state unchanged (revert semantics). -/
theorem requestDecryption_preconditions (st : ContractState) (c loanId : Nat) :
    ((st.encryptedLoans loanId).borrower ≠ c →
      requestScheduleDecryption st c loanId = .error .Unauthorized) ∧
    ((st.encryptedLoans loanId).borrower = c →
      (st.decryptedSchedules loanId).isRevealed = false →
      (st.amortizationSchedules loanId).isCalculated = false →
      requestScheduleDecryption st c loanId = .error .NotCalculated) ∧
    ((st.encryptedLoans loanId).borrower = c →
      (st.decryptedSchedules loanId).isRevealed = true →
      requestScheduleDecryption st c loanId = .error .AlreadyRevealed) ∧
    (∀ e, requestScheduleDecryption st c loanId = .error e →
      applyTx st (requestScheduleDecryption st c loanId) = st) := by
  refine ⟨fun h => ?_, fun h1 h2 h3 => ?_, fun h1 h2 => ?_, fun e he => ?_⟩
  · simp [requestScheduleDecryption, h]
  · simp [requestScheduleDecryption, h1, h2, h3]
  · simp [requestScheduleDecryption, h1, h2]
  · simp [applyTx, he]

/-- Witness for C5 at concrete states: address 5 (not the borrower) is refused
on the calculated schedule; the borrower gets `NotCalculated` before the
advisor computed; the borrower gets `AlreadyRevealed` after resolution. -/
theorem requestDecryption_preconditions_witness :
    ((sc3.encryptedLoans 1).borrower ≠ 5 ∧
      requestScheduleDecryption sc3 5 1 = .error .Unauthorized) ∧
    ((sc2.encryptedLoans 1).borrower = 3 ∧
      (sc2.decryptedSchedules 1).isRevealed = false ∧
      (sc2.amortizationSchedules 1).isCalculated = false ∧
      requestScheduleDecryption sc2 3 1 = .error .NotCalculated) ∧
    ((sc5.encryptedLoans 1).borrower = 3 ∧
      (sc5.decryptedSchedules 1).isRevealed = true ∧
      requestScheduleDecryption sc5 3 1 = .error .AlreadyRevealed) :=
  ⟨⟨by decide, (requestDecryption_preconditions sc3 5 1).1 (by decide)⟩,
   ⟨by decide, by decide, by decide,
     (requestDecryption_preconditions sc2 3 1).2.1 (by decide) (by decide) (by decide)⟩,
   ⟨by decide, by decide,
     (requestDecryption_preconditions sc5 3 1).2.2.1 (by decide) (by decide)⟩⟩

/-- Claim C6 (amended): a requestId that was never issued (maps to loanId 0)
fails with `UnknownRequest`; a requestId whose request already resolved fails
with `AlreadyRevealed` (not `UnknownRequest`, since `requestToLoanId` is never
deleted); every failing call leaves the state unchanged. -/
theorem resolve_unknown_vs_revealed (st : ContractState)
    (V : Nat → Cleartexts → Nat → Bool) (c req pf : Nat) (cl : Cleartexts) :
    (st.requestToLoanId req = 0 →
      decryptAmortizationSchedule st V c req cl pf = .error .UnknownRequest) ∧
    (st.requestToLoanId req ≠ 0 →
      (st.amortizationSchedules (st.requestToLoanId req)).isCalculated = true →
      (st.decryptedSchedules (st.requestToLoanId req)).isRevealed = true →
      decryptAmortizationSchedule st V c req cl pf = .error .AlreadyRevealed) ∧
    (∀ e, decryptAmortizationSchedule st V c req cl pf = .error e →
      applyTx st (decryptAmortizationSchedule st V c req cl pf) = st) := by
  refine ⟨fun h => ?_, fun h1 h2 h3 => ?_, fun e he => ?_⟩
  · simp [decryptAmortizationSchedule, h]
  · simp [decryptAmortizationSchedule, h1, h2, h3]
  · simp [applyTx, he]

/-- Witness for C6's amended theorem: request 99 was never issued in `sc4`,
request 1 is already resolved in `sc5`. -/
theorem resolve_unknown_vs_revealed_witness :
    (sc4.requestToLoanId 99 = 0 ∧
      decryptAmortizationSchedule sc4 okSig 9 99 clearA 0 = .error .UnknownRequest) ∧
    (sc5.requestToLoanId 1 ≠ 0 ∧
      (sc5.amortizationSchedules (sc5.requestToLoanId 1)).isCalculated = true ∧
      (sc5.decryptedSchedules (sc5.requestToLoanId 1)).isRevealed = true ∧
      decryptAmortizationSchedule sc5 okSig 9 1 clearA 0 = .error .AlreadyRevealed) :=
  ⟨⟨by decide, (resolve_unknown_vs_revealed sc4 okSig 9 99 0 clearA).1 (by decide)⟩,
   ⟨by decide, by decide, by decide,
     (resolve_unknown_vs_revealed sc5 okSig 9 1 0 clearA).2.1 (by decide)
       (by decide) (by decide)⟩⟩

/-- Counterexample to claim C6 as stated: in the post-resolution state `sc5`,
request 1 is already resolved, and replaying it fails with `AlreadyRevealed`
("Already decrypted"), not `UnknownRequest` ("Invalid request"), because
`requestToLoanId[1]` still maps to loan 1. -/
theorem resolve_resolved_not_unknown :
    (sc5.decryptedSchedules 1).isRevealed = true ∧
    decryptAmortizationSchedule sc5 okSig 9 1 clearA 0 = .error .AlreadyRevealed ∧
    decryptAmortizationSchedule sc5 okSig 9 1 clearA 0 ≠ .error .UnknownRequest := by
  refine ⟨by decide, rfl, fun h => ?_⟩
  rw [show decryptAmortizationSchedule sc5 okSig 9 1 clearA 0 =
    .error .AlreadyRevealed from rfl] at h
  simp at h

/-- Claim C7: when proof verification fails on an otherwise-valid pending
request, the call fails with `InvalidProof`, mutates nothing (revert), and the
request stays pending: the same requestId retried with cleartexts and proof
the verifier accepts succeeds. -/
theorem resolve_invalid_proof_recoverable (st : ContractState)
    (V : Nat → Cleartexts → Nat → Bool) (c c' req pf pf' : Nat) (cl cl' : Cleartexts)
    (hreq : st.requestToLoanId req ≠ 0)
    (hcalc : (st.amortizationSchedules (st.requestToLoanId req)).isCalculated = true)
    (hrev : (st.decryptedSchedules (st.requestToLoanId req)).isRevealed = false)
    (hbad : V req cl pf = false)
    (hgood : V req cl' pf' = true) :
    decryptAmortizationSchedule st V c req cl pf = .error .InvalidProof ∧
    applyTx st (decryptAmortizationSchedule st V c req cl pf) = st ∧
    isOkE (decryptAmortizationSchedule st V c' req cl' pf') = true := by
  refine ⟨?_, ?_, ?_⟩
  · simp [decryptAmortizationSchedule, hreq, hcalc, hrev, hbad]
  · simp [applyTx, decryptAmortizationSchedule, hreq, hcalc, hrev, hbad]
  · simp [decryptAmortizationSchedule, hreq, hcalc, hrev, hgood, isOkE]

/-- Verifier accepting exactly the proofs equal to 1, used to witness a failed
then corrected proof submission. -/
def proofSig : Nat → Cleartexts → Nat → Bool := fun _ _ pf => pf == 1

/-- Witness for C7: on the pending request 1 of `sc4`, proof 0 is rejected as
`InvalidProof` with no state change, and the retry with proof 1 succeeds. -/
theorem resolve_invalid_proof_recoverable_witness :
    (sc4.requestToLoanId 1 ≠ 0 ∧
     (sc4.amortizationSchedules (sc4.requestToLoanId 1)).isCalculated = true ∧
     (sc4.decryptedSchedules (sc4.requestToLoanId 1)).isRevealed = false ∧
     proofSig 1 clearA 0 = false ∧ proofSig 1 clearA 1 = true) ∧
    decryptAmortizationSchedule sc4 proofSig 9 1 clearA 0 = .error .InvalidProof ∧
    applyTx sc4 (decryptAmortizationSchedule sc4 proofSig 9 1 clearA 0) = sc4 ∧
    isOkE (decryptAmortizationSchedule sc4 proofSig 9 1 clearA 1) = true :=
  ⟨⟨by decide, by decide, by decide, by decide, by decide⟩,
   (resolve_invalid_proof_recoverable sc4 proofSig 9 9 1 0 1 clearA clearA
     (by decide) (by decide) (by decide) (by decide) (by decide)).1,
   (resolve_invalid_proof_recoverable sc4 proofSig 9 9 1 0 1 clearA clearA
     (by decide) (by decide) (by decide) (by decide) (by decide)).2.1,
   (resolve_invalid_proof_recoverable sc4 proofSig 9 9 1 0 1 clearA clearA
     (by decide) (by decide) (by decide) (by decide) (by decide)).2.2⟩

/-- Claim C4: resolution is effectively exactly-once — after a successful
`decryptAmortizationSchedule` for a requestId, replaying that requestId (with
any caller, cleartexts and proof, even ones the verifier accepts) fails with
`AlreadyRevealed` and leaves the stored plaintext schedule unchanged; the
successful call stored exactly the delivered cleartexts with `isRevealed`
true. -/
theorem resolve_replay_fails (st st' : ContractState)
    (V : Nat → Cleartexts → Nat → Bool) (c c' req pf pf' : Nat) (cl cl' : Cleartexts)
    (h : decryptAmortizationSchedule st V c req cl pf = .ok st') :
    decryptAmortizationSchedule st' V c' req cl' pf' = .error .AlreadyRevealed ∧
    applyTx st' (decryptAmortizationSchedule st' V c' req cl' pf') = st' ∧
    st'.decryptedSchedules = upd st.decryptedSchedules (st.requestToLoanId req)
      ⟨cl.1, cl.2.1, cl.2.2, true⟩ := by
  unfold decryptAmortizationSchedule at h
  by_cases h1 : st.requestToLoanId req = 0
  · simp [h1] at h
  · by_cases h2 : (st.amortizationSchedules (st.requestToLoanId req)).isCalculated = true
    · by_cases h3 : (st.decryptedSchedules (st.requestToLoanId req)).isRevealed = true
      · simp [h1, h2, h3] at h
      · by_cases h4 : V req cl pf = true
        · simp only [h1, if_neg h1, h2, h3, h4, if_pos, if_neg, not_true_eq_false,
            not_false_eq_true, if_false, if_true, Bool.not_eq_true,
            Except.ok.injEq] at h
          subst h
          refine ⟨?_, ?_, rfl⟩
          · simp [decryptAmortizationSchedule, h1, h2, upd]
          · simp [applyTx, decryptAmortizationSchedule, h1, h2, upd]
        · simp [h1, h2, h3, h4] at h
    · simp [h1, h2] at h

/-- Witness for C4: the concrete resolution of request 1 yields `sc5`;
replaying request 1 there (different caller and proof) fails with
`AlreadyRevealed` and leaves `sc5` unchanged. -/
theorem resolve_replay_fails_witness :
    decryptAmortizationSchedule sc4 okSig 9 1 clearA 0 = .ok sc5 ∧
    decryptAmortizationSchedule sc5 okSig 8 1 clearA 7 = .error .AlreadyRevealed ∧
    applyTx sc5 (decryptAmortizationSchedule sc5 okSig 8 1 clearA 7) = sc5 :=
  ⟨rfl,
   (resolve_replay_fails sc4 sc5 okSig 9 8 1 0 7 clearA clearA rfl).1,
   (resolve_replay_fails sc4 sc5 okSig 9 8 1 0 7 clearA clearA rfl).2.1⟩

/-- Sequential execution of `calculateAmortization` attempts on one loan by a
list of callers, with revert semantics; returns the final state and, per
attempt, `none` for success or the error. -/
def calcSeq (loanId : Nat) (st : ContractState) : List Nat → ContractState × List (Option Err)
  | [] => (st, [])
  | c :: cs =>
    match calculateAmortization st c loanId with
    | .ok st' =>
      let r := calcSeq loanId st' cs
      (r.1, none :: r.2)
    | .error e =>
      let r := calcSeq loanId st cs
      (r.1, some e :: r.2)

theorem calc_already (st : ContractState) (c loanId : Nat)
    (hadv : st.financialAdvisors c = true)
    (hc : (st.amortizationSchedules loanId).isCalculated = true) :
    calculateAmortization st c loanId = .error .AlreadyCalculated := by
  simp [calculateAmortization, hadv, hc]

theorem calcSeq_calculated (loanId : Nat) (st : ContractState) (cs : List Nat) :
    (st.amortizationSchedules loanId).isCalculated = true →
    (∀ c ∈ cs, st.financialAdvisors c = true) →
    calcSeq loanId st cs = (st, cs.map (fun _ => some Err.AlreadyCalculated)) := by
  induction cs with
  | nil => intro _ _; rfl
  | cons c cs ih =>
    intro hc hadv
    have h1 : calculateAmortization st c loanId = .error .AlreadyCalculated :=
      calc_already st c loanId (hadv c (by simp)) hc
    simp [calcSeq, h1, ih hc (fun c' hc' => hadv c' (List.mem_cons_of_mem _ hc'))]

/-- Claim C3: over any nonempty sequence of `calculateAmortization` attempts by
authorized advisors on a loan whose schedule is not yet calculated, the first
attempt succeeds and every subsequent attempt fails with `AlreadyCalculated`,
so exactly one attempt succeeds; the final state is exactly the state produced
by the single successful call (failed calls change nothing), and its schedule
is marked calculated. -/
theorem calcAmortization_at_most_once (st : ContractState) (loanId c : Nat)
    (cs : List Nat)
    (hnc : (st.amortizationSchedules loanId).isCalculated = false)
    (hadv : ∀ a ∈ c :: cs, st.financialAdvisors a = true) :
    (calcSeq loanId st (c :: cs)).2 =
      none :: cs.map (fun _ => some Err.AlreadyCalculated) ∧
    ((calcSeq loanId st (c :: cs)).2).count none = 1 ∧
    (calcSeq loanId st (c :: cs)).1 = calcScheduleUpdate st loanId ∧
    ((calcSeq loanId st (c :: cs)).1.amortizationSchedules loanId).isCalculated
      = true := by
  have hsucc : calculateAmortization st c loanId = .ok (calcScheduleUpdate st loanId) := by
    simp [calculateAmortization, hadv c (by simp), hnc]
  have hcalc : ((calcScheduleUpdate st loanId).amortizationSchedules loanId).isCalculated
      = true := by
    simp [calcScheduleUpdate, upd]
  have hadv' : ∀ a ∈ cs, (calcScheduleUpdate st loanId).financialAdvisors a = true := by
    intro a ha
    exact hadv a (List.mem_cons_of_mem _ ha)
  have hrest := calcSeq_calculated loanId (calcScheduleUpdate st loanId) cs hcalc hadv'
  refine ⟨?_, ?_, ?_, ?_⟩
  · simp [calcSeq, hsucc, hrest]
  · simp only [calcSeq, hsucc, hrest]
    rw [List.count_cons_self]
    have hzero : (cs.map (fun _ => some Err.AlreadyCalculated)).count (none : Option Err) = 0 := by
      rw [List.count_eq_zero]
      intro hmem
      obtain ⟨a, _, habs⟩ := List.mem_map.mp hmem
      exact Option.noConfusion habs
    rw [hzero]
  · simp [calcSeq, hsucc, hrest]
  · simp [calcSeq, hsucc, hrest, hcalc]

/-- Witness for C3: advisor 2 attempts `calculateAmortization` twice on loan 1
of the submitted state; the first succeeds, the second fails with
`AlreadyCalculated`. -/
theorem calcAmortization_at_most_once_witness :
    (sc2.amortizationSchedules 1).isCalculated = false ∧
    (∀ a ∈ [2, 2], sc2.financialAdvisors a = true) ∧
    (calcSeq 1 sc2 [2, 2]).2 = [none, some Err.AlreadyCalculated] ∧
    ((calcSeq 1 sc2 [2, 2]).2).count none = 1 ∧
    (((calcSeq 1 sc2 [2, 2]).1).amortizationSchedules 1).isCalculated = true :=
  ⟨by decide, by decide,
   by rw [(calcAmortization_at_most_once sc2 1 2 [2] (by decide) (by decide)).1]; rfl,
   (calcAmortization_at_most_once sc2 1 2 [2] (by decide) (by decide)).2.1,
   (calcAmortization_at_most_once sc2 1 2 [2] (by decide) (by decide)).2.2.2⟩

/-- The JSON record the UI stores under `schedule_<id>`: exactly the fields
`{data, timestamp, owner, loanAmount, term, status}` of `scheduleData`
(App.tsx lines 165-172). -/
structure StoredSchedule where
  data : String
  timestamp : Nat
  owner : String
  loanAmount : String
  term : Nat
  status : String
deriving DecidableEq

/-- A value in the UI's key-value storage: either a serialized schedule record
or the serialized array of ids stored under `schedule_keys`. -/
inductive StoreVal where
  | record (r : StoredSchedule)
  | keyList (ks : List String)
deriving DecidableEq

/-- Key-value store update (`contract.setData`). -/
def updS (store : String → Option StoreVal) (k : String) (v : StoreVal) :
    String → Option StoreVal :=
  fun k' => if k' = k then some v else store k'

/-- The ids parsed from the `schedule_keys` record; absent or unparsable data
yields `[]`, as in the UI's catch branch. -/
def getKeys (store : String → Option StoreVal) : List String :=
  match store "schedule_keys" with
  | some (.keyList ks) => ks
  | _ => []

/-- Embedding of the storage effect of the UI's `submitSchedule` (App.tsx lines
163-196): store the record under `schedule_<id>`, then read the current key
array (defaulting to `[]`), append the new id, and store it back under
`schedule_keys`. -/
def submitSchedule (store : String → Option StoreVal) (account dataEnc : String)
    (now : Nat) (loanAmount : String) (term : Nat) (scheduleId : String) :
    String → Option StoreVal :=
  let scheduleData : StoredSchedule :=
    ⟨dataEnc, now, account, loanAmount, term, "pending"⟩
  let store1 := updS store ("schedule_" ++ scheduleId) (.record scheduleData)
  let keys := getKeys store1
  updS store1 "schedule_keys" (.keyList (keys ++ [scheduleId]))

theorem schedule_key_inj (x y : String) (h : "schedule_" ++ x = "schedule_" ++ y) :
    x = y := by
  have hd := congrArg String.data h
  rw [String.data_append, String.data_append] at hd
  exact String.ext (List.append_cancel_left hd)

theorem getKeys_updS_other (store : String → Option StoreVal) (k : String)
    (v : StoreVal) (h : k ≠ "schedule_keys") :
    getKeys (updS store k v) = getKeys store := by
  simp only [getKeys, updS]
  rw [if_neg (Ne.symm h)]

theorem getKeys_updS_keys (store : String → Option StoreVal) (ks : List String) :
    getKeys (updS store "schedule_keys" (.keyList ks)) = ks := by
  simp [getKeys, updS]

/-- Claim C8: `submitSchedule` stores under `schedule_<id>` a record with
exactly the fields `{data, timestamp, owner, loanAmount, term, status}` (with
status `"pending"`) and appends the new id to the array under `schedule_keys`;
if every id listed in `schedule_keys` had a record before, every id listed
afterwards has one too. -/
theorem submitSchedule_storage (store : String → Option StoreVal)
    (account dataEnc loanAmount scheduleId : String) (now term : Nat)
    (hid : scheduleId ≠ "keys")
    (hinv : ∀ k ∈ getKeys store, ∃ r, store ("schedule_" ++ k) = some (.record r)) :
    submitSchedule store account dataEnc now loanAmount term scheduleId
        ("schedule_" ++ scheduleId) =
      some (.record ⟨dataEnc, now, account, loanAmount, term, "pending"⟩) ∧
    getKeys (submitSchedule store account dataEnc now loanAmount term scheduleId) =
      getKeys store ++ [scheduleId] ∧
    (∀ k ∈ getKeys (submitSchedule store account dataEnc now loanAmount term scheduleId),
      ∃ r, submitSchedule store account dataEnc now loanAmount term scheduleId
        ("schedule_" ++ k) = some (.record r)) := by
  have hkey : ("schedule_" ++ scheduleId) ≠ "schedule_keys" := by
    intro h
    exact hid (schedule_key_inj scheduleId "keys"
      (h.trans (by decide : "schedule_keys" = "schedule_" ++ "keys")))
  have hgetTop : getKeys (submitSchedule store account dataEnc now loanAmount term scheduleId)
      = getKeys store ++ [scheduleId] := by
    simp only [submitSchedule]
    rw [getKeys_updS_keys, getKeys_updS_other _ _ _ hkey]
  refine ⟨?_, hgetTop, ?_⟩
  · simp [submitSchedule, updS, hkey]
  · intro k hk
    rw [hgetTop] at hk
    rcases List.mem_append.mp hk with hold | hnew
    · by_cases hcoll : ("schedule_" ++ k) = "schedule_keys"
      · obtain ⟨r, hr⟩ := hinv k hold
        rw [hcoll] at hr
        exfalso
        have hnil : getKeys store = [] := by simp [getKeys, hr]
        rw [hnil] at hold
        simp at hold
      · by_cases hsame : ("schedule_" ++ k) = ("schedule_" ++ scheduleId)
        · exact ⟨⟨dataEnc, now, account, loanAmount, term, "pending"⟩,
            by simp [submitSchedule, updS, hcoll, hsame, hkey]⟩
        · obtain ⟨r, hr⟩ := hinv k hold
          exact ⟨r, by simp [submitSchedule, updS, hcoll, hsame, hr]⟩
    · have hk' : k = scheduleId := by simpa using hnew
      subst hk'
      exact ⟨⟨dataEnc, now, account, loanAmount, term, "pending"⟩,
        by simp [submitSchedule, updS, hkey]⟩

/-- Witness for C8: submitting id "1-a" into the empty store places the record
under `schedule_1-a` and makes the key array `["1-a"]`. -/
theorem submitSchedule_storage_witness :
    ("1-a" : String) ≠ "keys" ∧
    submitSchedule (fun _ => none) "0xabc" "FHE-data" 100 "10000" 12 "1-a"
        ("schedule_" ++ "1-a") =
      some (.record ⟨"FHE-data", 100, "0xabc", "10000", 12, "pending"⟩) ∧
    getKeys (submitSchedule (fun _ => none) "0xabc" "FHE-data" 100 "10000" 12 "1-a") =
      getKeys (fun _ => none) ++ ["1-a"] :=
  ⟨by decide,
   (submitSchedule_storage (fun _ => none) "0xabc" "FHE-data" "10000" "1-a" 100 12
     (by decide) (by intro k hk; simp [getKeys] at hk)).1,
   (submitSchedule_storage (fun _ => none) "0xabc" "FHE-data" "10000" "1-a" 100 12
     (by decide) (by intro k hk; simp [getKeys] at hk)).2.1⟩

end LoanFHE
